import Mathlib

/-!
Verification development for the translation-payload validation layer
(`validation.py`).  Python values are modelled by the inductive type
`PyVal`; the functions `_as_string`, `_normalize_grammar_items`,
`_build_grammar_text` and `parse_and_validate_translation` are shallow
embeddings of the functions of the same names in the source.  A Python
exception propagating out of a function is modelled by `Option.none`.
-/

namespace Validation

/-- Left brace and right brace character constants (used so that brace
characters never appear literally inside string or char literals). -/
def lbrace : Char := '\x7b'

/-- Right brace character constant. -/
def rbrace : Char := '\x7d'

/-- Backtick character constant. -/
def btick : Char := '\x60'

/-- Numeric value of a JSON float literal.  Python's `json.loads` turns
fractional/exponent number tokens into IEEE doubles; we keep the exact
decimal reading `mantissa * 10 ^ exp10` (plus the NaN/Infinity constants
Python accepts), which is faithful up to binary rounding that no claim
depends on. -/
inductive FloatVal where
  | finite (mantissa : Int) (exp10 : Int)
  | nan
  | inf
  | ninf
deriving DecidableEq

/-- Model of the Python values that flow through `validation.py`:
`None`, booleans, integers, floats, strings, lists and (string-keyed)
dicts.  Dicts are association lists; lookups take the last binding,
matching Python's insert-overwrite semantics. -/
inductive PyVal where
  | none : PyVal
  | bool : Bool → PyVal
  | int : Int → PyVal
  | float : FloatVal → PyVal
  | str : String → PyVal
  | list : List PyVal → PyVal
  | dict : List (String × PyVal) → PyVal

/-- Python `dict.get(k, d)`: the value of the last binding of `k`, or the
default `d` when `k` is absent. -/
def dget (m : List (String × PyVal)) (k : String) (d : PyVal) : PyVal :=
  match m.foldl (fun acc kv => if kv.1 = k then some kv.2 else acc)
      (Option.none (α := PyVal)) with
  | some v => v
  | Option.none => d

/-- Whitespace set used for Python's `str.strip()` and for the regex
class `\s` (the ASCII whitespace characters plus the common Unicode
space characters; exotic members of the full Unicode set never occur in
the payloads of this development). -/
def pyWsChar (c : Char) : Bool :=
  c = ' ' || c = '\t' || c = '\n' || c = '\r' || c = '\x0b' || c = '\x0c' ||
  ('\x1c' ≤ c && c ≤ '\x1f') || c = '\x85' || c = '\xa0' || c = ' ' || (' ' ≤ c && c ≤ ' ') ||
  c = ' ' || c = ' ' || c = ' ' || c = ' ' || c = '　'

/-- Python `s.strip()` on a character list: drop whitespace from both
ends. -/
def pyStripL (l : List Char) : List Char :=
  ((l.dropWhile pyWsChar).reverse.dropWhile pyWsChar).reverse

/-- Python `s.strip()`. -/
def pyStrip (s : String) : String := ⟨pyStripL s.data⟩

/-- Digits of a nonnegative integer (helper for `pyStr`). -/
def pyStrInt (i : Int) : String := toString i

mutual

/-- Python `str(value)` (used by `_as_string` for non-string,
non-`None` values).  Containers print like Python's `repr`-based
rendering; the float rendering is a faithful-enough approximation (no
claim exercises it). -/
def pyStr : PyVal → String
  | PyVal.none => "None"
  | PyVal.bool b => if b then "True" else "False"
  | PyVal.int i => pyStrInt i
  | PyVal.float (FloatVal.finite m e) =>
      pyStrInt m ++ (if e = 0 then "" else "e" ++ pyStrInt e)
  | PyVal.float FloatVal.nan => "nan"
  | PyVal.float FloatVal.inf => "inf"
  | PyVal.float FloatVal.ninf => "-inf"
  | PyVal.str s => s
  | PyVal.list xs => "[" ++ pyReprList xs ++ "]"
  | PyVal.dict m => String.singleton lbrace ++ pyReprDict m ++ String.singleton rbrace
termination_by v => (sizeOf v, 1)

/-- Python `repr(value)` for values inside containers: strings are
single-quoted. -/
def pyRepr : PyVal → String
  | PyVal.str s => "'" ++ s ++ "'"
  | v => pyStr v
termination_by v => (sizeOf v, 2)

/-- Comma-separated reprs of the elements of a list. -/
def pyReprList : List PyVal → String
  | [] => ""
  | [x] => pyRepr x
  | x :: xs => pyRepr x ++ ", " ++ pyReprList xs
termination_by l => (sizeOf l, 0)

/-- Comma-separated reprs of the entries of a dict. -/
def pyReprDict : List (String × PyVal) → String
  | [] => ""
  | [(k, v)] => "'" ++ k ++ "': " ++ pyRepr v
  | (k, v) :: m => "'" ++ k ++ "': " ++ pyRepr v ++ ", " ++ pyReprDict m
termination_by l => (sizeOf l, 0)

end

/-- Embedding of `_as_string` (validation.py line 31): a string is kept,
`None` becomes `""`, anything else becomes `str(value)`. -/
def _as_string (v : PyVal) : String :=
  match v with
  | PyVal.str s => s
  | PyVal.none => ""
  | v => pyStr v

/-- Key-name constants. -/
def kWord : String := "word"

/-- Key-name constant for the explanation field. -/
def kExplanation : String := "explanation"

/-- Key-name constant for the function field. -/
def kFunction : String := "function"

/-- Key-name constant for the additional-info field. -/
def kAdditionalInfo : String := "additional_info"

/-- Key-name constant for the examples field. -/
def kExamples : String := "examples"

/-- Key-name constant for the difficulty field. -/
def kDifficulty : String := "difficulty"

/-- Key-name constant for the original field. -/
def kOriginal : String := "original"

/-- Key-name constant for the translation field. -/
def kTranslation : String := "translation"

/-- Key-name constant for the grammar field. -/
def kGrammar : String := "grammar"

/-- Key-name constant for the grammar-json field. -/
def kGrammarJson : String := "grammar_json"

/-- One normalized grammar entry built from a dict item
(validation.py lines 40-47): each of the six fields is
`_as_string(item.get(key, "")).strip()`. -/
def normItem (m : List (String × PyVal)) : PyVal :=
  PyVal.dict
    [(kWord, PyVal.str (pyStrip (_as_string (dget m kWord (PyVal.str ""))))),
     (kExplanation, PyVal.str (pyStrip (_as_string (dget m kExplanation (PyVal.str ""))))),
     (kFunction, PyVal.str (pyStrip (_as_string (dget m kFunction (PyVal.str ""))))),
     (kAdditionalInfo, PyVal.str (pyStrip (_as_string (dget m kAdditionalInfo (PyVal.str ""))))),
     (kExamples, PyVal.str (pyStrip (_as_string (dget m kExamples (PyVal.str ""))))),
     (kDifficulty, PyVal.str (pyStrip (_as_string (dget m kDifficulty (PyVal.str "")))))]

/-- String stored under key `k` of an already-normalized item (models
the Python subscript `g[k]`, which never fails on `normItem` outputs;
non-dicts and non-string values yield `""` only on unreachable inputs). -/
def normField (g : PyVal) (k : String) : String :=
  match g with
  | PyVal.dict m =>
      match dget m k (PyVal.str "") with
      | PyVal.str s => s
      | _ => ""
  | _ => ""

/-- Embedding of `_normalize_grammar_items` (validation.py lines 35-50):
for a list value, keep the dict elements, normalize their six fields,
and keep only entries whose `word` or `explanation` is non-empty; any
non-list value yields `[]`. -/
def _normalize_grammar_items (v : PyVal) : List PyVal :=
  match v with
  | PyVal.list items =>
      (items.filterMap (fun it =>
        match it with
        | PyVal.dict m => some (normItem m)
        | _ => Option.none)).filter
        (fun g => normField g kWord ≠ "" || normField g kExplanation ≠ "")
  | _ => []

/-- Python `item.get(k, "")` followed by `.strip()` as used in
`_build_grammar_text` (validation.py lines 56-58): `Option.none` models
the `AttributeError` raised when `item` is not a dict or the stored
value is not a string. -/
def getStrStripped (it : PyVal) (k : String) : Option String :=
  match it with
  | PyVal.dict m =>
      match dget m k (PyVal.str "") with
      | PyVal.str s => some (pyStrip s)
      | _ => Option.none
  | _ => Option.none

/-- The lines accumulated by `_build_grammar_text`'s loop
(validation.py lines 54-64), in order; `Option.none` models a raised
exception. -/
def grammarLines : List PyVal → Option (List String)
  | [] => some []
  | it :: rest => do
      let w ← getStrStripped it kWord
      let e ← getStrStripped it kExplanation
      let f ← getStrStripped it kFunction
      let tail ← grammarLines rest
      if w = "" && e = "" then
        pure tail
      else
        let line := if w ≠ "" then "- " ++ w ++ ": " ++ e else "- " ++ e
        let line := if f ≠ "" then line ++ " (" ++ f ++ ")" else line
        pure (line :: tail)

/-- Embedding of `_build_grammar_text` (validation.py lines 53-65):
join the emitted lines with newlines; `Option.none` models a raised
exception. -/
def _build_grammar_text (items : List PyVal) : Option String :=
  (grammarLines items).map (String.intercalate "\n")


/-- JSON whitespace (the only characters `json.loads` skips between
tokens). -/
def jsonWsChar (c : Char) : Bool :=
  c = ' ' || c = '\t' || c = '\n' || c = '\r'

/-- Decimal digit test. -/
def isDigitCh (c : Char) : Bool := '0' ≤ c && c ≤ '9'

/-- Value of a hex digit. -/
def hexVal (c : Char) : Option Nat :=
  if '0' ≤ c && c ≤ '9' then some (c.toNat - 48)
  else if 'a' ≤ c && c ≤ 'f' then some (c.toNat - 87)
  else if 'A' ≤ c && c ≤ 'F' then some (c.toNat - 70)
  else Option.none

/-- Four hex digits (the `\uXXXX` escape payload). -/
def parseHex4 (l : List Char) : Option (Nat × List Char) :=
  match l with
  | a :: b :: c :: d :: rest => do
      let va ← hexVal a
      let vb ← hexVal b
      let vc ← hexVal c
      let vd ← hexVal d
      pure (((va * 16 + vb) * 16 + vc) * 16 + vd, rest)
  | _ => Option.none

/-- Drop an expected literal character sequence, failing on mismatch. -/
def dropLit : List Char → List Char → Option (List Char)
  | [], l => some l
  | p :: ps, c :: cs => if c = p then dropLit ps cs else Option.none
  | _ :: _, [] => Option.none

/-- Natural value of a digit string. -/
def digitsVal (ds : List Char) : Nat :=
  ds.foldl (fun a c => 10 * a + (c.toNat - 48)) 0

/-- Body of a JSON string literal, after the opening quote.  Escapes
follow `json.loads`: the eight simple escapes plus `\uXXXX` with
surrogate-pair combination; unescaped control characters are rejected
(strict mode).  A lone surrogate (which Python would keep, but a Lean
`Char` cannot hold) becomes U+FFFD; no payload in this development
contains one. -/
def parseStringBody (fuel : Nat) (acc : List Char) (l : List Char) :
    Option (String × List Char) :=
  match fuel with
  | 0 => Option.none
  | fuel + 1 =>
    match l with
    | [] => Option.none
    | c :: rest =>
      if c = '"' then some (⟨acc.reverse⟩, rest)
      else if c = '\\' then
        match rest with
        | [] => Option.none
        | e :: rest2 =>
          if e = '"' then parseStringBody fuel ('"' :: acc) rest2
          else if e = '\\' then parseStringBody fuel ('\\' :: acc) rest2
          else if e = '/' then parseStringBody fuel ('/' :: acc) rest2
          else if e = 'b' then parseStringBody fuel ('\x08' :: acc) rest2
          else if e = 'f' then parseStringBody fuel ('\x0c' :: acc) rest2
          else if e = 'n' then parseStringBody fuel ('\n' :: acc) rest2
          else if e = 'r' then parseStringBody fuel ('\r' :: acc) rest2
          else if e = 't' then parseStringBody fuel ('\t' :: acc) rest2
          else if e = 'u' then
            match parseHex4 rest2 with
            | Option.none => Option.none
            | some (n, rest3) =>
              if 0xd800 ≤ n && n ≤ 0xdbff then
                match rest3 with
                | '\\' :: 'u' :: rest4 =>
                  match parseHex4 rest4 with
                  | some (m, rest5) =>
                    if 0xdc00 ≤ m && m ≤ 0xdfff then
                      parseStringBody fuel
                        (Char.ofNat (0x10000 + (n - 0xd800) * 0x400 + (m - 0xdc00)) :: acc)
                        rest5
                    else
                      parseStringBody fuel ('\ufffd' :: acc) rest3
                  | Option.none => parseStringBody fuel ('\ufffd' :: acc) rest3
                | _ => parseStringBody fuel ('\ufffd' :: acc) rest3
              else if 0xdc00 ≤ n && n ≤ 0xdfff then
                parseStringBody fuel ('\ufffd' :: acc) rest3
              else
                parseStringBody fuel (Char.ofNat n :: acc) rest3
          else Option.none
      else if c.toNat < 0x20 then Option.none
      else parseStringBody fuel (c :: acc) rest

/-- A JSON number token, mirroring the scanner regex
`(-?(?:0|[1-9]\d*))(\.\d+)?([eE][-+]?\d+)?`: the integer part is a
single `0` or a nonzero-led digit run, and the fraction/exponent groups
are consumed only when complete.  Pure integer tokens give `int`;
anything with a fraction or exponent gives `float`. -/
def parseNumber (l : List Char) : Option (PyVal × List Char) :=
  let signed := match l with
    | '-' :: t => some (true, t)
    | _ => some (false, l)
  match signed with
  | some (neg, l1) =>
    let ip := match l1 with
      | '0' :: t => some ((['0'] : List Char), t)
      | c :: _ =>
          if isDigitCh c then some (l1.takeWhile isDigitCh, l1.dropWhile isDigitCh)
          else Option.none
      | [] => Option.none
    match ip with
    | Option.none => Option.none
    | some (intDigits, rest1) =>
      let fr := match rest1 with
        | '.' :: t =>
            let ds := t.takeWhile isDigitCh
            if ds = [] then (([] : List Char), rest1) else (ds, t.dropWhile isDigitCh)
        | _ => (([] : List Char), rest1)
      let fracDigits := fr.1
      let rest2 := fr.2
      let ex := match rest2 with
        | e :: t =>
          if e = 'e' || e = 'E' then
            match t with
            | s :: t2 =>
              if s = '+' || s = '-' then
                let ds := t2.takeWhile isDigitCh
                if ds = [] then (some 0, rest2, false)
                else ((if s = '-' then some (-(digitsVal ds : Int)) else some (digitsVal ds : Int)),
                      t2.dropWhile isDigitCh, true)
              else
                let ds := t.takeWhile isDigitCh
                if ds = [] then (some 0, rest2, false)
                else (some (digitsVal ds : Int), t.dropWhile isDigitCh, true)
            | [] => (some 0, rest2, false)
          else (some 0, rest2, false)
        | [] => (some 0, rest2, false)
      match ex with
      | (some expv, rest3, hasExp) =>
        if fracDigits = [] && hasExp = false then
          some (PyVal.int (if neg then -(digitsVal intDigits : Int) else (digitsVal intDigits : Int)), rest3)
        else
          let mant : Int := digitsVal (intDigits ++ fracDigits)
          let mant := if neg then -mant else mant
          some (PyVal.float (FloatVal.finite mant (expv - fracDigits.length)), rest3)
      | (Option.none, _, _) => Option.none
  | Option.none => Option.none

mutual

/-- A JSON value, starting at a non-whitespace position; returns the
value and the unconsumed rest.  Fuel only bounds recursion depth and is
always sufficient for the generous budget `jsonLoadsL` supplies. -/
def parseValue (fuel : Nat) (l : List Char) : Option (PyVal × List Char) :=
  match fuel with
  | 0 => Option.none
  | fuel + 1 =>
    match l with
    | [] => Option.none
    | c :: rest =>
      if c = '"' then
        (parseStringBody (l.length + 1) [] rest).map (fun sr => (PyVal.str sr.1, sr.2))
      else if c = lbrace then parseObjectBody fuel (rest.dropWhile jsonWsChar) []
      else if c = '[' then parseArrayBody fuel (rest.dropWhile jsonWsChar) []
      else if c = 't' then (dropLit ['r', 'u', 'e'] rest).map (fun r => (PyVal.bool true, r))
      else if c = 'f' then (dropLit ['a', 'l', 's', 'e'] rest).map (fun r => (PyVal.bool false, r))
      else if c = 'n' then (dropLit ['u', 'l', 'l'] rest).map (fun r => (PyVal.none, r))
      else if c = 'N' then (dropLit ['a', 'N'] rest).map (fun r => (PyVal.float FloatVal.nan, r))
      else if c = 'I' then
        (dropLit ['n', 'f', 'i', 'n', 'i', 't', 'y'] rest).map
          (fun r => (PyVal.float FloatVal.inf, r))
      else if c = '-' then
        match rest with
        | 'I' :: r2 =>
            (dropLit ['n', 'f', 'i', 'n', 'i', 't', 'y'] r2).map
              (fun r => (PyVal.float FloatVal.ninf, r))
        | _ => parseNumber l
      else if isDigitCh c then parseNumber l
      else Option.none

/-- Members of a JSON object, starting just after `\x7b` (whitespace
already skipped); `acc` holds the bindings parsed so far, in order. -/
def parseObjectBody (fuel : Nat) (l : List Char) (acc : List (String × PyVal)) :
    Option (PyVal × List Char) :=
  match fuel with
  | 0 => Option.none
  | fuel + 1 =>
    match l with
    | [] => Option.none
    | c :: rest =>
      if c = rbrace && acc.isEmpty then some (PyVal.dict [], rest)
      else if c = '"' then
        match parseStringBody (l.length + 1) [] rest with
        | Option.none => Option.none
        | some (key, rest1) =>
          match rest1.dropWhile jsonWsChar with
          | ':' :: rest2 =>
            match parseValue fuel (rest2.dropWhile jsonWsChar) with
            | Option.none => Option.none
            | some (v, rest3) =>
              match rest3.dropWhile jsonWsChar with
              | ',' :: rest4 =>
                  parseObjectNext fuel (rest4.dropWhile jsonWsChar) (acc ++ [(key, v)])
              | c2 :: rest4 =>
                  if c2 = rbrace then some (PyVal.dict (acc ++ [(key, v)]), rest4)
                  else Option.none
              | [] => Option.none
          | _ => Option.none
      else Option.none

/-- After a comma inside an object: a property name must follow. -/
def parseObjectNext (fuel : Nat) (l : List Char) (acc : List (String × PyVal)) :
    Option (PyVal × List Char) :=
  match fuel with
  | 0 => Option.none
  | fuel + 1 =>
    match l with
    | '"' :: _ => parseObjectBody fuel l acc
    | _ => Option.none

/-- Elements of a JSON array, starting just after `[` (whitespace
already skipped). -/
def parseArrayBody (fuel : Nat) (l : List Char) (acc : List PyVal) :
    Option (PyVal × List Char) :=
  match fuel with
  | 0 => Option.none
  | fuel + 1 =>
    match l with
    | ']' :: rest =>
        if acc.isEmpty then some (PyVal.list [], rest) else Option.none
    | _ =>
      match parseValue fuel l with
      | Option.none => Option.none
      | some (v, rest1) =>
        match rest1.dropWhile jsonWsChar with
        | ',' :: rest2 => parseArrayBody fuel (rest2.dropWhile jsonWsChar) (acc ++ [v])
        | ']' :: rest2 => some (PyVal.list (acc ++ [v]), rest2)
        | _ => Option.none

end

/-- Embedding of `json.loads` on a character list: parse one value,
then require only whitespace to remain ("Extra data" otherwise). -/
def jsonLoadsL (l : List Char) : Option PyVal :=
  match parseValue (4 * l.length + 16) (l.dropWhile jsonWsChar) with
  | some (v, rest) =>
      if (rest.dropWhile jsonWsChar).isEmpty then some v else Option.none
  | Option.none => Option.none


/-- Python `s.startswith("```")` on a character list. -/
def startsWithTicksL (l : List Char) : Bool :=
  match l with
  | a :: b :: c :: _ => a == btick && b == btick && c == btick
  | _ => false

/-- Python `s.strip("`")`: remove all leading and trailing backticks
(validation.py line 83). -/
def stripTicksL (l : List Char) : List Char :=
  ((l.dropWhile (fun c => c == btick)).reverse.dropWhile (fun c => c == btick)).reverse

/-- The substring slice of validation.py lines 85-88: if the string has
a first `\x7b` and a last `\x7d` with the latter strictly after the
former, keep only that inclusive span, else keep the string unchanged
(`find`/`rfind` with the `end > start` guard). -/
def extractBracesL (l : List Char) : List Char :=
  let a := l.dropWhile (fun c => !(c == lbrace))
  match a with
  | [] => l
  | _ :: _ =>
    let b := (a.reverse.dropWhile (fun c => !(c == rbrace))).reverse
    match b with
    | [] => l
    | _ :: _ => b

/-- Model of `re.sub(r"```(json)?", "", s)` (validation.py line 103):
remove every (leftmost, non-overlapping) occurrence of three backticks
optionally followed by `json`. -/
def subFencesL : List Char → List Char
  | a :: b :: c :: 'j' :: 's' :: 'o' :: 'n' :: rest =>
      if a == btick && b == btick && c == btick then subFencesL rest
      else a :: subFencesL (b :: c :: 'j' :: 's' :: 'o' :: 'n' :: rest)
  | a :: b :: c :: rest =>
      if a == btick && b == btick && c == btick then subFencesL rest
      else a :: subFencesL (b :: c :: rest)
  | l => l

/-- Split at the first occurrence of `ch`: the characters before it and
the characters after it. -/
def splitAtChar (ch : Char) : List Char → Option (List Char × List Char)
  | [] => Option.none
  | c :: rest =>
      if c = ch then some ([], rest)
      else (splitAtChar ch rest).map (fun pr => (c :: pr.1, pr.2))

/-- Fuel-driven scan for `re.sub(r",\s*\]", "]", s)`: each step consumes
at least one character, so the wrapper's fuel is always sufficient. -/
def subCommaBracketGo (fuel : Nat) (l : List Char) : List Char :=
  match fuel with
  | 0 => l
  | fuel + 1 =>
    match l with
    | [] => []
    | c :: rest =>
      if c = ',' then
        match rest.dropWhile pyWsChar with
        | ']' :: after => ']' :: subCommaBracketGo fuel after
        | _ => c :: subCommaBracketGo fuel rest
      else c :: subCommaBracketGo fuel rest

/-- Model of `re.sub(r",\s*\]", "]", s)` (validation.py line 119):
replace every comma-whitespace-bracket occurrence by a bracket. -/
def subCommaBracketL (l : List Char) : List Char :=
  subCommaBracketGo (l.length + 1) l

/-- Fuel-driven scan for `re.findall` of brace-delimited spans; each
step consumes at least one character. -/
def findAllObjsGo (fuel : Nat) (l : List Char) : List (List Char) :=
  match fuel with
  | 0 => []
  | fuel + 1 =>
    match l with
    | [] => []
    | c :: rest =>
      if c = lbrace then
        match splitAtChar rbrace rest with
        | some (before, after) =>
            (lbrace :: (before ++ [rbrace])) :: findAllObjsGo fuel after
        | Option.none => []
      else findAllObjsGo fuel rest

/-- Model of the `re.findall` of validation.py line 124 (every leftmost,
non-overlapping span from an opening brace to the first closing brace
after it), applied to the grammar-array text. -/
def findAllObjsL (l : List Char) : List (List Char) :=
  findAllObjsGo (l.length + 1) l

/-- Attempt to match the pattern `"name"\s*:\s*"(...)"` at the start of
`l`, returning the lazily-captured group (the characters before the
first following quote). -/
def matchFieldAt (name : List Char) (l : List Char) : Option (List Char) := do
  let r1 ← dropLit ('"' :: (name ++ ['"'])) l
  let r2 := r1.dropWhile pyWsChar
  let r3 ← match r2 with
    | ':' :: t => some t
    | _ => Option.none
  let r4 := r3.dropWhile pyWsChar
  let r5 ← match r4 with
    | '"' :: t => some t
    | _ => Option.none
  match splitAtChar '"' r5 with
  | some (cap, _) => some cap
  | Option.none => Option.none

/-- Model of `re.search(r'"name"\s*:\s*"([\s\S]*?)"', s)`
(validation.py lines 105-106 and 128): the captured group of the
leftmost match. -/
def searchFieldL (name : List Char) : List Char → Option (List Char)
  | [] => matchFieldAt name []
  | c :: rest =>
    match matchFieldAt name (c :: rest) with
    | some cap => some cap
    | Option.none => searchFieldL name rest

/-- Attempt to match `"grammar"\s*:\s*(\[[\s\S]*?\])` at the start of
`l`; the captured group includes the brackets. -/
def matchGramAt (l : List Char) : Option (List Char) := do
  let r1 ← dropLit ('"' :: (kGrammar.data ++ ['"'])) l
  let r2 := r1.dropWhile pyWsChar
  let r3 ← match r2 with
    | ':' :: t => some t
    | _ => Option.none
  let r4 := r3.dropWhile pyWsChar
  let r5 ← match r4 with
    | '[' :: t => some t
    | _ => Option.none
  match splitAtChar ']' r5 with
  | some (cap, _) => some ('[' :: (cap ++ [']']))
  | Option.none => Option.none

/-- Model of `re.search(r'"grammar"\s*:\s*(\[[\s\S]*?\])', s)`
(validation.py line 112). -/
def searchGramL : List Char → Option (List Char)
  | [] => matchGramAt []
  | c :: rest =>
    match matchGramAt (c :: rest) with
    | some cap => some cap
    | Option.none => searchGramL rest

/-- Field extraction of validation.py lines 95-97, applied to the parsed
candidate object: `Option.none` models the `AttributeError` raised by
`data.get` when the parse produced a non-dict. -/
def extractFields (data : PyVal) : Option (String × String × List PyVal) :=
  match data with
  | PyVal.dict m =>
      some (pyStrip (_as_string (dget m kOriginal (PyVal.str ""))),
            pyStrip (_as_string (dget m kTranslation (PyVal.str ""))),
            _normalize_grammar_items (dget m kGrammar (PyVal.list [])))
  | _ => Option.none

/-- The `try` block of validation.py lines 77-97: strip, de-fence and
brace-slice a string payload, JSON-parse it, and extract the fields; a
dict payload is used directly; any other payload acts as `\x7b\x7d`.
`Option.none` models an exception reaching the `except` at line 98. -/
def stage1 (payload : PyVal) : Option (String × String × List PyVal) :=
  match payload with
  | PyVal.str s =>
      let l0 := pyStripL s.data
      let l1 := if startsWithTicksL l0 then stripTicksL l0 else l0
      let l2 := extractBracesL l1
      (jsonLoadsL l2).bind extractFields
  | PyVal.dict m => extractFields (PyVal.dict m)
  | _ => extractFields (PyVal.dict [])

/-- The `_field` helper of validation.py lines 127-129: leftmost regex
capture for `name` inside an object substring, stripped, defaulting to
the empty string. -/
def regexField (obj : List Char) (name : String) : String :=
  match searchFieldL name.data obj with
  | some cap => pyStrip ⟨cap⟩
  | Option.none => ""

/-- One per-item regex-extracted grammar object (validation.py lines
130-137). -/
def regexItem (obj : List Char) : PyVal :=
  PyVal.dict
    [(kWord, PyVal.str (regexField obj kWord)),
     (kExplanation, PyVal.str (regexField obj kExplanation)),
     (kFunction, PyVal.str (regexField obj kFunction)),
     (kAdditionalInfo, PyVal.str (regexField obj kAdditionalInfo)),
     (kExamples, PyVal.str (regexField obj kExamples)),
     (kDifficulty, PyVal.str (regexField obj kDifficulty))]

/-- The last-resort extraction of validation.py lines 124-140: regex out
the object substrings, build the six-field items, and keep those with a
non-empty word or explanation. -/
def regexExtractItems (gram : List Char) : List PyVal :=
  (findAllObjsL gram).filterMap (fun obj =>
    let it := regexItem obj
    if normField it kWord ≠ "" || normField it kExplanation ≠ "" then some it
    else Option.none)

/-- The grammar-array part of the regex fallback (validation.py lines
112-140): capture the array text, try `json.loads` on it, retry after
the trailing-comma repair, and finally fall back to per-item regex
extraction; no capture leaves the items empty. -/
def fallbackGrammar (s : List Char) : List PyVal :=
  match searchGramL s with
  | Option.none => []
  | some gram =>
    match jsonLoadsL gram with
    | some (PyVal.list xs) => xs
    | some _ => []
    | Option.none =>
      match jsonLoadsL (subCommaBracketL gram) with
      | some (PyVal.list xs) => xs
      | some _ => []
      | Option.none => regexExtractItems gram

/-- The regex fallback of validation.py lines 98-143 for a string
payload (the only kind that can reach it): de-fence, regex out
`original` and `translation`, and recover the grammar items.  The
`json.dumps` branch of line 101 for non-string payloads is unreachable,
because the `try` block never raises on non-strings. -/
def fallbackStr (s : String) : String × String × List PyVal :=
  let l := subFencesL s.data
  (match searchFieldL kOriginal.data l with
    | some cap => pyStrip ⟨cap⟩
    | Option.none => "",
   match searchFieldL kTranslation.data l with
    | some cap => pyStrip ⟨cap⟩
    | Option.none => "",
   fallbackGrammar l)

/-- Final assembly of validation.py lines 145-152: always rebuild the
grammar text from the resolved items and return the four-key record;
`Option.none` models the uncaught exception from `_build_grammar_text`
(line 145 sits outside every `try`). -/
def assembleRecord (t : String × String × List PyVal) : Option PyVal :=
  match _build_grammar_text t.2.2 with
  | some text =>
      some (PyVal.dict
        [(kOriginal, PyVal.str t.1),
         (kTranslation, PyVal.str t.2.1),
         (kGrammar, PyVal.str text),
         (kGrammarJson, PyVal.list t.2.2)])
  | Option.none => Option.none

/-- The `original`, `translation` and grammar items resolved by the
`try`/`except` chain of validation.py lines 73-143: the `try` block's
values when it succeeds, the regex fallback's values when it raises.
The non-string arm of the fallback is unreachable, because `stage1`
never fails on non-strings. -/
def resolvedFields (payload : PyVal) : String × String × List PyVal :=
  match stage1 payload with
  | some r => r
  | Option.none =>
    match payload with
    | PyVal.str s => fallbackStr s
    | _ => ("", "", [])

/-- Embedding of `parse_and_validate_translation` (validation.py lines
68-152): resolve the fields through the fallback chain, then assemble
the record.  `Option.none` models an uncaught exception. -/
def parse_and_validate_translation (payload : PyVal) : Option PyVal :=
  assembleRecord (resolvedFields payload)


/-- Key lookup in a returned record or item (the records this
development builds have unique keys, so first-match lookup agrees with
Python). -/
def pyLookup (r : PyVal) (k : String) : Option PyVal :=
  match r with
  | PyVal.dict m => (m.find? (fun kv => kv.1 == k)).map (fun kv => kv.2)
  | _ => Option.none

/-- The string stored under key `k`, when present with string type. -/
def strAt (r : PyVal) (k : String) : Option String :=
  match pyLookup r k with
  | some (PyVal.str s) => some s
  | _ => Option.none

/-- A grammar item with a non-empty `word` field or a non-empty
`explanation` field (claim C3's retained-item condition). -/
def hasContentB (g : PyVal) : Bool :=
  (match strAt g kWord with
   | some s => !(s == "")
   | Option.none => false) ||
  (match strAt g kExplanation with
   | some s => !(s == "")
   | Option.none => false)

/-- A grammar item that is a mapping holding all six expected keys with
string values (claim C4's schema condition). -/
def wellTypedItemB (g : PyVal) : Bool :=
  (strAt g kWord).isSome && (strAt g kExplanation).isSome &&
  (strAt g kFunction).isSome && (strAt g kAdditionalInfo).isSome &&
  (strAt g kExamples).isSome && (strAt g kDifficulty).isSome

/-- The `grammar_json` list of a returned record. -/
def grammarJsonOf (r : PyVal) : Option (List PyVal) :=
  match pyLookup r kGrammarJson with
  | some (PyVal.list gs) => some gs
  | _ => Option.none

/-- Claim C3's filtering invariant, as a decidable record predicate. -/
def filterInvB (r : PyVal) : Bool :=
  match grammarJsonOf r with
  | some gs => gs.all hasContentB
  | Option.none => false

/-- Claim C4's schema invariant, as a decidable record predicate. -/
def typedInvB (r : PyVal) : Bool :=
  match grammarJsonOf r with
  | some gs => gs.all wellTypedItemB
  | Option.none => false


/-- Payload of claim C6: the well-formed mapping. -/
def c6_payload : PyVal :=
  PyVal.dict
    [(kOriginal, PyVal.str "Ciao"),
     (kTranslation, PyVal.str "Hola"),
     (kGrammar, PyVal.list
       [PyVal.dict
         [(kWord, PyVal.str "Ciao"),
          (kExplanation, PyVal.str "Hola"),
          (kFunction, PyVal.str "interjección")]])]

/-- Record claim C6 expects. -/
def c6_expected : PyVal :=
  PyVal.dict
    [(kOriginal, PyVal.str "Ciao"),
     (kTranslation, PyVal.str "Hola"),
     (kGrammar, PyVal.str "- Ciao: Hola (interjección)"),
     (kGrammarJson, PyVal.list
       [PyVal.dict
         [(kWord, PyVal.str "Ciao"),
          (kExplanation, PyVal.str "Hola"),
          (kFunction, PyVal.str "interjección"),
          (kAdditionalInfo, PyVal.str ""),
          (kExamples, PyVal.str ""),
          (kDifficulty, PyVal.str "")]])]

/-- C6: on the well-formed mapping payload the normalizer returns
exactly the record of the claim: original `Ciao`, translation `Hola`,
the single fully-defaulted grammar item, and the rendered line
`- Ciao: Hola (interjección)`. -/
theorem round_trip_on_well_formed_mapping :
    parse_and_validate_translation c6_payload = some c6_expected := by
  rfl

/-- Payload of claim C7: a JSON object wrapped in prose. -/
def c7_payload : PyVal :=
  PyVal.str
    "Result: \x7b\n \"original\": \"Ciao\", \n \"translation\": \"Hola\", \n \"grammar\": []\n \x7d End"

/-- Record claim C7 expects. -/
def c7_expected : PyVal :=
  PyVal.dict
    [(kOriginal, PyVal.str "Ciao"),
     (kTranslation, PyVal.str "Hola"),
     (kGrammar, PyVal.str ""),
     (kGrammarJson, PyVal.list [])]

/-- C7: the prose-wrapped JSON string is sliced from the first opening
brace to the last closing brace and parsed, yielding original `Ciao`,
translation `Hola`, an empty grammar list and an empty grammar text. -/
theorem prose_wrapped_json_sliced_and_parsed :
    parse_and_validate_translation c7_payload = some c7_expected := by
  rfl

/-- Failing input for claim C1: stage 1 fails on the trailing comma,
the regex fallback recovers the grammar array as `[1]` via
`json.loads`, and `_build_grammar_text` then calls `.get` on the
integer `1`. -/
def c1_failing_payload : PyVal :=
  PyVal.str "\x7b\"grammar\": [1], \x7d"

/-- C1 (code bug): on `c1_failing_payload` the function does not return
a record at all — the final `_build_grammar_text` call (outside every
`try`) raises `AttributeError` on the recovered non-dict grammar item,
contradicting the claim and the function's own docstring ("Never raises
on malformed payloads"). -/
theorem parse_raises_on_recovered_nondict_grammar_item :
    parse_and_validate_translation c1_failing_payload = Option.none := by
  rfl

/-- Counterexample input for claim C3: stage 1 fails on the trailing
comma and the regex fallback recovers the grammar array `[\x7b\x7d]`
via `json.loads`, which is kept without any filtering. -/
def c3_cex_payload : PyVal :=
  PyVal.str
    "\x7b\"original\": \"a\", \"translation\": \"b\", \"grammar\": [\x7b\x7d], \x7d"

/-- Record actually returned on `c3_cex_payload`: its `grammar_json`
holds the all-empty item `\x7b\x7d`. -/
def c3_cex_result : PyVal :=
  PyVal.dict
    [(kOriginal, PyVal.str "a"),
     (kTranslation, PyVal.str "b"),
     (kGrammar, PyVal.str ""),
     (kGrammarJson, PyVal.list [PyVal.dict []])]

/-- C3 (counterexample): the function returns a record whose
`grammar_json` contains an element with neither a non-empty `word` nor
a non-empty `explanation` — the filtering invariant fails on the
`json.loads`-recovered path. -/
theorem filtering_invariant_fails_on_loads_recovered_grammar :
    parse_and_validate_translation c3_cex_payload = some c3_cex_result ∧
      filterInvB c3_cex_result = false := by
  exact ⟨by rfl, by rfl⟩

/-- Counterexample input for claim C4: the recovered grammar array
holds an object with only a `word` key. -/
def c4_cex_payload : PyVal :=
  PyVal.str
    "\x7b\"translation\": \"t\", \"grammar\": [\x7b\"word\": \"w\"\x7d], \x7d"

/-- Record actually returned on `c4_cex_payload`: its single grammar
item lacks the `explanation`, `function`, `additional_info`, `examples`
and `difficulty` keys. -/
def c4_cex_result : PyVal :=
  PyVal.dict
    [(kOriginal, PyVal.str ""),
     (kTranslation, PyVal.str "t"),
     (kGrammar, PyVal.str "- w: "),
     (kGrammarJson, PyVal.list [PyVal.dict [(kWord, PyVal.str "w")]])]

/-- C4 (counterexample): the function returns a record whose
`grammar_json` element does not contain the six keys — the schema
invariant fails on the `json.loads`-recovered path. -/
theorem six_key_schema_fails_on_loads_recovered_grammar :
    parse_and_validate_translation c4_cex_payload = some c4_cex_result ∧
      typedInvB c4_cex_result = false := by
  exact ⟨by rfl, by rfl⟩


/-- Payload-kind test: string payloads. -/
def isStrB (p : PyVal) : Bool :=
  match p with
  | PyVal.str _ => true
  | _ => false

/-- Payload-kind test: mapping payloads. -/
def isDictB (p : PyVal) : Bool :=
  match p with
  | PyVal.dict _ => true
  | _ => false

/-- The all-default record: empty strings and an empty grammar list. -/
def default_record : PyVal :=
  PyVal.dict
    [(kOriginal, PyVal.str ""),
     (kTranslation, PyVal.str ""),
     (kGrammar, PyVal.str ""),
     (kGrammarJson, PyVal.list [])]

/-- C10: a payload that is neither a string nor a mapping (None, a
number, a list, ...) yields, without raising, the all-default record
with empty original, translation and grammar and an empty grammar_json
list. -/
theorem non_string_non_mapping_yields_default_record (p : PyVal)
    (h1 : isStrB p = false) (h2 : isDictB p = false) :
    parse_and_validate_translation p = some default_record := by
  cases p
  case str s => simp [isStrB] at h1
  case dict m => simp [isDictB] at h2
  all_goals rfl

/-- Witness for C10 at the concrete non-string, non-mapping payload
`3`. -/
theorem non_string_non_mapping_yields_default_record_witness :
    isStrB (PyVal.int 3) = false ∧ isDictB (PyVal.int 3) = false ∧
      parse_and_validate_translation (PyVal.int 3) = some default_record :=
  ⟨rfl, rfl, non_string_non_mapping_yields_default_record (PyVal.int 3) rfl rfl⟩

/-- C2: whenever the function returns a record, the record's `grammar`
string is exactly `_build_grammar_text` of the record's `grammar_json`
list — the rendered text is always recomputed, never carried over from
the input. -/
theorem grammar_text_always_rebuilt_from_grammar_json (p r : PyVal)
    (h : parse_and_validate_translation p = some r) :
    ∃ items text,
      pyLookup r kGrammarJson = some (PyVal.list items) ∧
      pyLookup r kGrammar = some (PyVal.str text) ∧
      _build_grammar_text items = some text := by
  unfold parse_and_validate_translation assembleRecord at h
  cases e : _build_grammar_text (resolvedFields p).2.2 with
  | none => rw [e] at h; exact absurd h (by simp)
  | some text =>
    rw [e] at h
    rw [Option.some_inj] at h
    subst h
    exact ⟨(resolvedFields p).2.2, text, rfl, rfl, e⟩

/-- Witness for C2 at the concrete payload `\x7b\x7d` (the empty
mapping). -/
theorem grammar_text_always_rebuilt_witness :
    parse_and_validate_translation (PyVal.dict []) = some default_record ∧
      (∃ items text,
        pyLookup default_record kGrammarJson = some (PyVal.list items) ∧
        pyLookup default_record kGrammar = some (PyVal.str text) ∧
        _build_grammar_text items = some text) :=
  ⟨rfl, grammar_text_always_rebuilt_from_grammar_json (PyVal.dict []) default_record rfl⟩


/-- A grammar item as the data model describes it: six string fields. -/
structure GrammarItem where
  word : String
  explanation : String
  function : String
  additional_info : String
  examples : String
  difficulty : String

/-- The dict a `GrammarItem` denotes. -/
def GrammarItem.toPyVal (g : GrammarItem) : PyVal :=
  PyVal.dict
    [(kWord, PyVal.str g.word),
     (kExplanation, PyVal.str g.explanation),
     (kFunction, PyVal.str g.function),
     (kAdditionalInfo, PyVal.str g.additional_info),
     (kExamples, PyVal.str g.examples),
     (kDifficulty, PyVal.str g.difficulty)]

/-- The per-item line exactly as claim C5's templates prescribe it,
filled with the raw field values: skip when word and explanation are
both empty, else `- word: explanation` (or `- explanation` without a
word), with ` (function)` appended when the function is non-empty.
Kept to state the counterexample against the original claim. -/
def renderLine (g : GrammarItem) : Option String :=
  if g.word = "" ∧ g.explanation = "" then Option.none
  else
    let line := if g.word ≠ "" then "- " ++ g.word ++ ": " ++ g.explanation
      else "- " ++ g.explanation
    some (if g.function ≠ "" then line ++ " (" ++ g.function ++ ")" else line)

/-- The line `_build_grammar_text` actually emits for one item: the
three displayed fields are stripped before the skip test, and the
templates are filled with the stripped values (validation.py lines
56-64). -/
def renderLineStripped (g : GrammarItem) : Option String :=
  if pyStrip g.word = "" ∧ pyStrip g.explanation = "" then Option.none
  else
    let line := if pyStrip g.word ≠ "" then
        "- " ++ pyStrip g.word ++ ": " ++ pyStrip g.explanation
      else "- " ++ pyStrip g.explanation
    some (if pyStrip g.function ≠ "" then line ++ " (" ++ pyStrip g.function ++ ")"
      else line)

/-- Reading the `word` of a denoted item evaluates to the stripped
field. -/
theorem getStrStripped_toPyVal_word (g : GrammarItem) :
    getStrStripped (GrammarItem.toPyVal g) kWord = some (pyStrip g.word) := rfl

/-- Reading the `explanation` of a denoted item. -/
theorem getStrStripped_toPyVal_explanation (g : GrammarItem) :
    getStrStripped (GrammarItem.toPyVal g) kExplanation = some (pyStrip g.explanation) := rfl

/-- Reading the `function` of a denoted item. -/
theorem getStrStripped_toPyVal_function (g : GrammarItem) :
    getStrStripped (GrammarItem.toPyVal g) kFunction = some (pyStrip g.function) := rfl

/-- The loop of `_build_grammar_text` emits, for every item sequence,
exactly the strip-then-render lines. -/
theorem grammarLines_toPyVal (items : List GrammarItem) :
    grammarLines (items.map GrammarItem.toPyVal) =
      some (items.filterMap renderLineStripped) := by
  induction items with
  | nil => rfl
  | cons g gs ih =>
    simp only [List.map_cons, grammarLines, getStrStripped_toPyVal_word,
      getStrStripped_toPyVal_explanation, getStrStripped_toPyVal_function,
      Option.bind_eq_bind, Option.some_bind]
    rw [ih, List.filterMap_cons]
    by_cases hcw : pyStrip g.word = ""
    · by_cases hce : pyStrip g.explanation = ""
      · simp [renderLineStripped, hcw, hce]
      · simp [renderLineStripped, hcw, hce]
    · simp [renderLineStripped, hcw]

/-- Single padded item: the raw-template line and the emitted line
differ. -/
def c5_cex_items : List GrammarItem := [⟨" a ", "b", "", "", "", ""⟩]

/-- Single whitespace-only item: the raw templates emit a line, the
code skips it. -/
def c5_skip_items : List GrammarItem := [⟨" ", " ", "", "", "", ""⟩]

/-- C5 (counterexample): the claim's literal templates fail on items
with surrounding whitespace — `_build_grammar_text` strips the fields
first, so a padded word produces `- a: b` where the template prescribes
`-  a : b`, and a whitespace-only word/explanation pair is skipped
where the template prescribes a line. -/
theorem bullet_line_templates_fail_on_padded_items :
    (_build_grammar_text (c5_cex_items.map GrammarItem.toPyVal) = some "- a: b" ∧
      String.intercalate "\n" (c5_cex_items.filterMap renderLine) = "-  a : b" ∧
      ("- a: b" : String) ≠ "-  a : b") ∧
    (_build_grammar_text (c5_skip_items.map GrammarItem.toPyVal) = some "" ∧
      String.intercalate "\n" (c5_skip_items.filterMap renderLine) = "-  :  " ∧
      ("" : String) ≠ "-  :  ") :=
  ⟨⟨rfl, rfl, by decide⟩, ⟨rfl, rfl, by decide⟩⟩

/-- C5 (amended): for every sequence of grammar items,
`_build_grammar_text` first strips the word, explanation and function
fields, skips items whose stripped word and stripped explanation are
both empty, emits `- word: explanation` with the stripped values when
the stripped word is non-empty and `- explanation` otherwise, appends
` (function)` when the stripped function is non-empty, joins the
emitted lines with newline separators with no trailing newline, and
returns the empty string for the empty input sequence; it is pure,
total on grammar items, and deterministic. -/
theorem build_grammar_text_strips_then_renders (items : List GrammarItem) :
    _build_grammar_text (items.map GrammarItem.toPyVal) =
      some (String.intercalate "\n" (items.filterMap renderLineStripped)) := by
  unfold _build_grammar_text
  rw [grammarLines_toPyVal items]
  rfl

/-- Counterexample input for claim C8: unparseable JSON (trailing
comma), well-formed `original`/`translation` fields, but the recovered
grammar array `[true]` makes the final render raise. -/
def c8_cex_string : String :=
  "\x7b\"original\": \"a\", \"translation\": \"b\", \"grammar\": [true], \x7d"

/-- C8 (counterexample): on `c8_cex_string` the claim's hypotheses hold
— stage 1 throws, and the regex finds both fields — yet the function
raises instead of returning the recovered values, because the recovered
grammar array holds a non-dict. -/
theorem regex_recovery_claim_fails_when_render_raises :
    stage1 (PyVal.str c8_cex_string) = Option.none ∧
      searchFieldL kOriginal.data (subFencesL c8_cex_string.data) = some ("a".data) ∧
      searchFieldL kTranslation.data (subFencesL c8_cex_string.data) = some ("b".data) ∧
      parse_and_validate_translation (PyVal.str c8_cex_string) = Option.none :=
  ⟨rfl, rfl, rfl, rfl⟩

/-- C8 (amended): whenever stage 1 throws, the regex finds the two
fields, and the function does return a record, that record's `original`
and `translation` are exactly the stripped regex captures. -/
theorem regex_recovery_returns_extracted_fields
    (s : String) (v1 v2 : List Char) (r : PyVal)
    (hfail : stage1 (PyVal.str s) = Option.none)
    (ho : searchFieldL kOriginal.data (subFencesL s.data) = some v1)
    (ht : searchFieldL kTranslation.data (subFencesL s.data) = some v2)
    (hr : parse_and_validate_translation (PyVal.str s) = some r) :
    pyLookup r kOriginal = some (PyVal.str (pyStrip ⟨v1⟩)) ∧
      pyLookup r kTranslation = some (PyVal.str (pyStrip ⟨v2⟩)) := by
  have hres : resolvedFields (PyVal.str s) = fallbackStr s := by
    unfold resolvedFields
    rw [hfail]
  unfold parse_and_validate_translation at hr
  rw [hres] at hr
  simp only [fallbackStr] at hr
  rw [ho, ht] at hr
  unfold assembleRecord at hr
  simp only at hr
  cases e : _build_grammar_text (fallbackGrammar (subFencesL s.data)) with
  | none => rw [e] at hr; exact absurd hr (by simp)
  | some text =>
    rw [e] at hr
    rw [Option.some_inj] at hr
    subst hr
    exact ⟨rfl, rfl⟩

/-- Witness input for C8: a trailing comma inside the grammar array
breaks the JSON parse, and the comma-repair path recovers the item. -/
def c8_wit_string : String :=
  "\x7b\"original\": \"x\", \"translation\": \"y\", \"grammar\": [\x7b\"word\": \"w\", \"explanation\": \"e\"\x7d,], \x7d"

/-- Record returned on `c8_wit_string`. -/
def c8_wit_result : PyVal :=
  PyVal.dict
    [(kOriginal, PyVal.str "x"),
     (kTranslation, PyVal.str "y"),
     (kGrammar, PyVal.str "- w: e"),
     (kGrammarJson, PyVal.list
       [PyVal.dict [(kWord, PyVal.str "w"), (kExplanation, PyVal.str "e")]])]

/-- Witness for the amended C8: on `c8_wit_string` — whose grammar
array has a trailing comma immediately before the closing bracket —
the function returns, and the returned `original`/`translation` are the
regex captures. -/
theorem regex_recovery_returns_extracted_fields_witness :
    stage1 (PyVal.str c8_wit_string) = Option.none ∧
      parse_and_validate_translation (PyVal.str c8_wit_string) = some c8_wit_result ∧
      pyLookup c8_wit_result kOriginal = some (PyVal.str (pyStrip ⟨"x".data⟩)) ∧
      pyLookup c8_wit_result kTranslation = some (PyVal.str (pyStrip ⟨"y".data⟩)) := by
  have happ := regex_recovery_returns_extracted_fields c8_wit_string ("x".data) ("y".data)
    c8_wit_result rfl rfl rfl rfl
  exact ⟨rfl, rfl, happ.1, happ.2⟩


/-- Every item produced by `_normalize_grammar_items` has a non-empty
word or explanation and carries all six keys with string values. -/
theorem normalize_items_invariants (v : PyVal) :
    ∀ g ∈ _normalize_grammar_items v, hasContentB g = true ∧ wellTypedItemB g = true := by
  intro g hg
  cases v
  case list items =>
    unfold _normalize_grammar_items at hg
    rw [List.mem_filter] at hg
    obtain ⟨hmem, hcond⟩ := hg
    rw [List.mem_filterMap] at hmem
    obtain ⟨it, hit, hsome⟩ := hmem
    cases it <;> simp at hsome
    case dict m =>
    subst hsome
    constructor
    · show (!(normField (normItem m) kWord == "") ||
          !(normField (normItem m) kExplanation == "")) = true
      simp only [Bool.or_eq_true, Bool.not_eq_true', beq_eq_false_iff_ne]
      simpa using hcond
    · rfl
  all_goals simp [_normalize_grammar_items] at hg

/-- Every item produced by the last-resort per-object regex extraction
has a non-empty word or explanation and carries all six keys with
string values. -/
theorem regex_extract_invariants (gram : List Char) :
    ∀ g ∈ regexExtractItems gram, hasContentB g = true ∧ wellTypedItemB g = true := by
  intro g hg
  simp only [regexExtractItems, List.mem_filterMap] at hg
  obtain ⟨obj, hobj, hsome⟩ := hg
  split at hsome
  case isTrue hc =>
    rw [Option.some_inj] at hsome
    subst hsome
    constructor
    · show (!(normField (regexItem obj) kWord == "") ||
          !(normField (regexItem obj) kExplanation == "")) = true
      simp only [Bool.or_eq_true, Bool.not_eq_true', beq_eq_false_iff_ne]
      simpa using hc
    · rfl
  case isFalse hc => exact absurd hsome (by simp)

/-- Path condition under which claims C3 and C4 fail: the grammar items
were recovered by a successful `json.loads` inside the regex fallback
(directly or after the trailing-comma repair), the only path that skips
both normalization and filtering. -/
def viaLoadsRecoveredGrammar (p : PyVal) : Bool :=
  match p with
  | PyVal.str s =>
    match stage1 (PyVal.str s) with
    | some _ => false
    | Option.none =>
      match searchGramL (subFencesL s.data) with
      | some gram =>
          (jsonLoadsL gram).isSome || (jsonLoadsL (subCommaBracketL gram)).isSome
      | Option.none => false
  | _ => false

/-- Unfolding of `stage1` on a string payload. -/
theorem stage1_str_eq (s : String) :
    stage1 (PyVal.str s) =
      (jsonLoadsL (extractBracesL
        (if startsWithTicksL (pyStripL s.data) then stripTicksL (pyStripL s.data)
         else pyStripL s.data))).bind extractFields := rfl

/-- On a string payload whose stage 1 failed, the loads-recovery test
reduces to the grammar-capture test. -/
theorem viaLoads_str_none (s : String) (gram : List Char)
    (hs : stage1 (PyVal.str s) = Option.none)
    (hg : searchGramL (subFencesL s.data) = some gram) :
    viaLoadsRecoveredGrammar (PyVal.str s) =
      ((jsonLoadsL gram).isSome || (jsonLoadsL (subCommaBracketL gram)).isSome) := by
  show (match stage1 (PyVal.str s) with
        | some _ => false
        | Option.none =>
          match searchGramL (subFencesL s.data) with
          | some g2 => (jsonLoadsL g2).isSome || (jsonLoadsL (subCommaBracketL g2)).isSome
          | Option.none => false) = _
  rw [hs, hg]

/-- Off the `json.loads`-recovery path, the resolved grammar items come
from `_normalize_grammar_items`, from the per-object regex extraction,
or are empty. -/
theorem resolved_items_cases (p : PyVal)
    (hpath : viaLoadsRecoveredGrammar p = false) :
    (∃ v, (resolvedFields p).2.2 = _normalize_grammar_items v) ∨
      (∃ gram, (resolvedFields p).2.2 = regexExtractItems gram) ∨
      (resolvedFields p).2.2 = [] := by
  cases p
  case str s =>
    cases hs : stage1 (PyVal.str s) with
    | some F =>
      have hres : resolvedFields (PyVal.str s) = F := by
        unfold resolvedFields
        rw [hs]
      rw [stage1_str_eq] at hs
      cases hj : jsonLoadsL (extractBracesL
          (if startsWithTicksL (pyStripL s.data) then stripTicksL (pyStripL s.data)
           else pyStripL s.data)) with
      | none => rw [hj] at hs; exact absurd hs (by simp)
      | some d =>
        rw [hj] at hs
        have hs2 : extractFields d = some F := hs
        cases d
        case dict m =>
          have heq : (pyStrip (_as_string (dget m kOriginal (PyVal.str ""))),
              pyStrip (_as_string (dget m kTranslation (PyVal.str ""))),
              _normalize_grammar_items (dget m kGrammar (PyVal.list []))) = F :=
            Option.some_inj.mp hs2
          left
          exact ⟨dget m kGrammar (PyVal.list []), by rw [hres, ← heq]⟩
        all_goals exact absurd hs2 (by simp [extractFields])
    | none =>
      have hres : resolvedFields (PyVal.str s) = fallbackStr s := by
        unfold resolvedFields
        rw [hs]
      have hitems : (fallbackStr s).2.2 = fallbackGrammar (subFencesL s.data) := rfl
      cases hg : searchGramL (subFencesL s.data) with
      | none =>
        right; right
        rw [hres, hitems]
        unfold fallbackGrammar
        rw [hg]
      | some gram =>
        have hload : ((jsonLoadsL gram).isSome ||
            (jsonLoadsL (subCommaBracketL gram)).isSome) = false := by
          rw [← viaLoads_str_none s gram hs hg]
          exact hpath
        cases hl1 : jsonLoadsL gram with
        | some v => rw [hl1] at hload; simp at hload
        | none =>
          cases hl2 : jsonLoadsL (subCommaBracketL gram) with
          | some v => rw [hl2] at hload; simp at hload
          | none =>
            right; left
            refine ⟨gram, ?_⟩
            rw [hres, hitems]
            unfold fallbackGrammar
            rw [hg]
            show (match jsonLoadsL gram with
                  | some (PyVal.list xs) => xs
                  | some _ => []
                  | Option.none =>
                    match jsonLoadsL (subCommaBracketL gram) with
                    | some (PyVal.list xs) => xs
                    | some _ => []
                    | Option.none => regexExtractItems gram) = regexExtractItems gram
            rw [hl1, hl2]
  case dict m => exact Or.inl ⟨dget m kGrammar (PyVal.list []), rfl⟩
  case none => exact Or.inr (Or.inr rfl)
  case bool b => exact Or.inr (Or.inr rfl)
  case int i => exact Or.inr (Or.inr rfl)
  case float f => exact Or.inr (Or.inr rfl)
  case list xs => exact Or.inr (Or.inr rfl)

/-- Off the `json.loads`-recovery path, every resolved grammar item
satisfies both item invariants. -/
theorem resolved_items_invariants (p : PyVal)
    (hpath : viaLoadsRecoveredGrammar p = false) :
    ∀ g ∈ (resolvedFields p).2.2, hasContentB g = true ∧ wellTypedItemB g = true := by
  rcases resolved_items_cases p hpath with ⟨v, hv⟩ | ⟨gram, hgr⟩ | hnil
  · rw [hv]; exact normalize_items_invariants v
  · rw [hgr]; exact regex_extract_invariants gram
  · rw [hnil]; intro g hg; exact absurd hg (by simp)

/-- C3 (amended): on every path except the `json.loads` recovery of the
grammar array inside the regex fallback — i.e. on the structural-parse
path and the per-item regex-extraction path — every element of the
returned `grammar_json` has a non-empty word or a non-empty
explanation. -/
theorem filtering_invariant_on_non_loads_paths (p r : PyVal)
    (h : parse_and_validate_translation p = some r)
    (hpath : viaLoadsRecoveredGrammar p = false) :
    filterInvB r = true := by
  unfold parse_and_validate_translation assembleRecord at h
  cases e : _build_grammar_text (resolvedFields p).2.2 with
  | none => rw [e] at h; exact absurd h (by simp)
  | some text =>
    rw [e] at h
    rw [Option.some_inj] at h
    subst h
    show ((resolvedFields p).2.2).all hasContentB = true
    rw [List.all_eq_true]
    intro g hg
    exact (resolved_items_invariants p hpath g hg).1

/-- Witness payload for the amended C3: a mapping whose single grammar
item has only a word. -/
def c3_wit_payload : PyVal :=
  PyVal.dict [(kGrammar, PyVal.list [PyVal.dict [(kWord, PyVal.str "hola")]])]

/-- Record returned on `c3_wit_payload`. -/
def c3_wit_result : PyVal :=
  PyVal.dict
    [(kOriginal, PyVal.str ""),
     (kTranslation, PyVal.str ""),
     (kGrammar, PyVal.str "- hola: "),
     (kGrammarJson, PyVal.list
       [PyVal.dict
         [(kWord, PyVal.str "hola"),
          (kExplanation, PyVal.str ""),
          (kFunction, PyVal.str ""),
          (kAdditionalInfo, PyVal.str ""),
          (kExamples, PyVal.str ""),
          (kDifficulty, PyVal.str "")]])]

/-- Witness for the amended C3 at `c3_wit_payload`. -/
theorem filtering_invariant_on_non_loads_paths_witness :
    parse_and_validate_translation c3_wit_payload = some c3_wit_result ∧
      viaLoadsRecoveredGrammar c3_wit_payload = false ∧
      filterInvB c3_wit_result = true :=
  ⟨rfl, rfl, filtering_invariant_on_non_loads_paths c3_wit_payload c3_wit_result rfl rfl⟩

/-- C4 (amended): on every path except the `json.loads` recovery of the
grammar array inside the regex fallback, every element of the returned
`grammar_json` is a mapping carrying all six keys with string values. -/
theorem six_key_schema_on_non_loads_paths (p r : PyVal)
    (h : parse_and_validate_translation p = some r)
    (hpath : viaLoadsRecoveredGrammar p = false) :
    typedInvB r = true := by
  unfold parse_and_validate_translation assembleRecord at h
  cases e : _build_grammar_text (resolvedFields p).2.2 with
  | none => rw [e] at h; exact absurd h (by simp)
  | some text =>
    rw [e] at h
    rw [Option.some_inj] at h
    subst h
    show ((resolvedFields p).2.2).all wellTypedItemB = true
    rw [List.all_eq_true]
    intro g hg
    exact (resolved_items_invariants p hpath g hg).2

/-- Witness payload for the amended C4: a mapping whose single grammar
item has only an explanation. -/
def c4_wit_payload : PyVal :=
  PyVal.dict [(kGrammar, PyVal.list [PyVal.dict [(kExplanation, PyVal.str "uso")]])]

/-- Record returned on `c4_wit_payload`. -/
def c4_wit_result : PyVal :=
  PyVal.dict
    [(kOriginal, PyVal.str ""),
     (kTranslation, PyVal.str ""),
     (kGrammar, PyVal.str "- uso"),
     (kGrammarJson, PyVal.list
       [PyVal.dict
         [(kWord, PyVal.str ""),
          (kExplanation, PyVal.str "uso"),
          (kFunction, PyVal.str ""),
          (kAdditionalInfo, PyVal.str ""),
          (kExamples, PyVal.str ""),
          (kDifficulty, PyVal.str "")]])]

/-- Witness for the amended C4 at `c4_wit_payload`. -/
theorem six_key_schema_on_non_loads_paths_witness :
    parse_and_validate_translation c4_wit_payload = some c4_wit_result ∧
      viaLoadsRecoveredGrammar c4_wit_payload = false ∧
      typedInvB c4_wit_result = true :=
  ⟨rfl, rfl, six_key_schema_on_non_loads_paths c4_wit_payload c4_wit_result rfl rfl⟩


/-- String append acts as list append on the underlying data. -/
theorem str_data_append (a b : String) : (a ++ b).data = a.data ++ b.data := rfl

/-- Dropping across a prefix all of whose elements satisfy the
predicate. -/
theorem dropWhile_append_all {α : Type} (p : α → Bool) (l1 l2 : List α)
    (h : ∀ c ∈ l1, p c = true) :
    List.dropWhile p (l1 ++ l2) = List.dropWhile p l2 := by
  induction l1 with
  | nil => rfl
  | cons a t ih =>
    rw [List.cons_append, List.dropWhile_cons, h a (List.mem_cons_self a t)]
    exact ih (fun c hc => h c (List.mem_cons_of_mem a hc))

/-- Python strip is the identity on a list with non-whitespace first and
last characters. -/
theorem pyStripL_sandwich (a b : Char) (l : List Char)
    (ha : pyWsChar a = false) (hb : pyWsChar b = false) :
    pyStripL (a :: (l ++ [b])) = a :: (l ++ [b]) := by
  unfold pyStripL
  rw [List.dropWhile_cons, ha]
  simp only [Bool.false_eq_true, if_false, List.reverse_cons, List.reverse_append,
    List.reverse_cons, List.reverse_nil, List.nil_append, List.singleton_append,
    List.cons_append, List.append_assoc]
  rw [List.dropWhile_cons, hb]
  simp

/-- Backtick stripping on a three-tick sandwich whose body starts and
ends with non-backtick characters. -/
theorem stripTicksL_sandwich (a b : Char) (l : List Char)
    (ha : (a == btick) = false) (hb : (b == btick) = false) :
    stripTicksL ([btick, btick, btick] ++ (a :: (l ++ [b])) ++ [btick, btick, btick]) =
      a :: (l ++ [b]) := by
  unfold stripTicksL
  have ht : (btick == btick) = true := by decide
  simp only [List.cons_append, List.nil_append, List.dropWhile_cons, ht, if_true, ha,
    Bool.false_eq_true, if_false, List.reverse_cons, List.reverse_append, List.reverse_nil,
    List.nil_append, List.singleton_append, List.append_assoc]
  simp [hb]

/-- The brace slice on a list shaped prefix-object-suffix, with no
opening brace in the prefix and no closing brace in the suffix, keeps
exactly the object span. -/
theorem extractBracesL_shaped (pre mid suf : List Char)
    (hpre : ∀ c ∈ pre, (!(c == lbrace)) = true)
    (hsuf : ∀ c ∈ suf, (!(c == rbrace)) = true) :
    extractBracesL (pre ++ (lbrace :: (mid ++ [rbrace])) ++ suf) =
      lbrace :: (mid ++ [rbrace]) := by
  unfold extractBracesL
  have hl : (!(lbrace == lbrace)) = false := by decide
  have hr : (!(rbrace == rbrace)) = false := by decide
  have ha : List.dropWhile (fun c => !(c == lbrace))
      (pre ++ (lbrace :: (mid ++ [rbrace])) ++ suf) =
      lbrace :: (mid ++ [rbrace] ++ suf) := by
    rw [List.append_assoc, dropWhile_append_all _ pre _ hpre, List.cons_append,
      List.dropWhile_cons, hl]
    simp
  rw [ha]
  have hb : List.dropWhile (fun c => !(c == rbrace))
      (suf.reverse ++ (rbrace :: (mid.reverse ++ [lbrace]))) =
      rbrace :: (mid.reverse ++ [lbrace]) := by
    rw [dropWhile_append_all _ suf.reverse _ (fun c hc => hsuf c (List.mem_reverse.mp hc)),
      List.dropWhile_cons, hr]
    simp
  show (let b := (List.dropWhile (fun c => !(c == rbrace))
        (lbrace :: (mid ++ [rbrace] ++ suf)).reverse).reverse;
      match b with
      | [] => pre ++ (lbrace :: (mid ++ [rbrace])) ++ suf
      | _ :: _ => b) = lbrace :: (mid ++ [rbrace])
  rw [show (lbrace :: (mid ++ [rbrace] ++ suf)).reverse =
      suf.reverse ++ (rbrace :: (mid.reverse ++ [lbrace])) by simp]
  rw [hb]
  rw [show (rbrace :: (mid.reverse ++ [lbrace])).reverse = lbrace :: (mid ++ [rbrace]) by simp]


/-- On a string whose characters form a brace-delimited object with no
surrounding whitespace, stage 1 just JSON-parses the whole string. -/
theorem stage1_of_object_string (j : String) (mid : List Char)
    (hj : j.data = lbrace :: (mid ++ [rbrace])) :
    stage1 (PyVal.str j) = (jsonLoadsL j.data).bind extractFields := by
  rw [stage1_str_eq]
  have h1 : pyStripL j.data = j.data := by
    rw [hj]
    exact pyStripL_sandwich lbrace rbrace mid (by decide) (by decide)
  rw [h1]
  have h2 : startsWithTicksL j.data = false := by
    rw [hj]
    cases mid with
    | nil => rfl
    | cons x t =>
      cases t with
      | nil => rfl
      | cons y t2 => simp [startsWithTicksL, lbrace, btick]
  rw [h2]
  have h3 : extractBracesL j.data = j.data := by
    rw [hj]
    have hsh := extractBracesL_shaped [] mid [] (by simp) (by simp)
    simpa using hsh
  simp only [Bool.false_eq_true, if_false]
  rw [h3]

/-- On a fenced payload — three backticks, an optional tag line, the
object string, then a newline and three closing backticks — stage 1
strips the fences, slices to the braces, and JSON-parses the same
object string. -/
theorem stage1_fenced_eq (a : Char) (trest : List Char) (j : String) (mid : List Char)
    (hj : j.data = lbrace :: (mid ++ [rbrace]))
    (ha : (a == btick) = false)
    (hpre : ∀ c ∈ a :: trest, (!(c == lbrace)) = true) :
    stage1 (PyVal.str ⟨[btick, btick, btick] ++ ((a :: trest) ++ j.data) ++
      ('\n' :: [btick, btick, btick])⟩) = (jsonLoadsL j.data).bind extractFields := by
  rw [stage1_str_eq]
  have hdata : (⟨[btick, btick, btick] ++ ((a :: trest) ++ j.data) ++
      ('\n' :: [btick, btick, btick])⟩ : String).data =
      [btick, btick, btick] ++ ((a :: trest) ++ j.data) ++
        ('\n' :: [btick, btick, btick]) := rfl
  rw [hdata]
  have hshape1 : [btick, btick, btick] ++ ((a :: trest) ++ j.data) ++
      ('\n' :: [btick, btick, btick]) =
      btick :: (([btick, btick] ++ ((a :: trest) ++ j.data) ++ ['\n', btick, btick]) ++
        [btick]) := by
    simp
  have h1 : pyStripL ([btick, btick, btick] ++ ((a :: trest) ++ j.data) ++
      ('\n' :: [btick, btick, btick])) =
      [btick, btick, btick] ++ ((a :: trest) ++ j.data) ++
        ('\n' :: [btick, btick, btick]) := by
    rw [hshape1]
    exact pyStripL_sandwich btick btick _ (by decide) (by decide)
  rw [h1]
  have h2 : startsWithTicksL ([btick, btick, btick] ++ ((a :: trest) ++ j.data) ++
      ('\n' :: [btick, btick, btick])) = true := rfl
  rw [h2]
  simp only [if_true]
  have hshape2 : [btick, btick, btick] ++ ((a :: trest) ++ j.data) ++
      ('\n' :: [btick, btick, btick]) =
      [btick, btick, btick] ++ (a :: ((trest ++ j.data) ++ ['\n'])) ++
        [btick, btick, btick] := by
    simp
  have h3 : stripTicksL ([btick, btick, btick] ++ ((a :: trest) ++ j.data) ++
      ('\n' :: [btick, btick, btick])) = a :: ((trest ++ j.data) ++ ['\n']) := by
    rw [hshape2]
    exact stripTicksL_sandwich a '\n' (trest ++ j.data) ha (by decide)
  rw [h3]
  have hshape3 : a :: ((trest ++ j.data) ++ ['\n']) =
      (a :: trest) ++ (lbrace :: (mid ++ [rbrace])) ++ ['\n'] := by
    rw [hj]
    simp
  have h4 : extractBracesL (a :: ((trest ++ j.data) ++ ['\n'])) = j.data := by
    rw [hshape3, hj]
    exact extractBracesL_shaped (a :: trest) mid ['\n'] hpre (by decide)
  rw [h4]

/-- Two payloads whose stage 1 resolves to the same fields parse to the
same record. -/
theorem parse_eq_of_stage1_some (p q : PyVal) (F : String × String × List PyVal)
    (hp : stage1 p = some F) (hq : stage1 q = some F) :
    parse_and_validate_translation p = parse_and_validate_translation q := by
  unfold parse_and_validate_translation resolvedFields
  rw [hp, hq]

/-- C9: a well-formed JSON translation object wrapped in triple-backtick
markdown fences — with or without a `json` language tag — parses to the
same record as the unfenced object string. -/
theorem fenced_payload_parses_like_unfenced (j : String) (mid : List Char)
    (m : List (String × PyVal))
    (hj : j.data = lbrace :: (mid ++ [rbrace]))
    (hm : jsonLoadsL j.data = some (PyVal.dict m)) :
    parse_and_validate_translation (PyVal.str ("```json\n" ++ j ++ "\n```")) =
        parse_and_validate_translation (PyVal.str j) ∧
      parse_and_validate_translation (PyVal.str ("```\n" ++ j ++ "\n```")) =
        parse_and_validate_translation (PyVal.str j) := by
  have hstr1 : ("```json\n" ++ j ++ "\n```") =
      (⟨[btick, btick, btick] ++ (('j' :: ['s', 'o', 'n', '\n']) ++ j.data) ++
        ('\n' :: [btick, btick, btick])⟩ : String) := by
    apply String.ext
    rw [str_data_append, str_data_append]
    rw [show ("```json\n" : String).data =
      [btick, btick, btick, 'j', 's', 'o', 'n', '\n'] from rfl]
    rw [show ("\n```" : String).data = ['\n', btick, btick, btick] from rfl]
    simp
  have hstr2 : ("```\n" ++ j ++ "\n```") =
      (⟨[btick, btick, btick] ++ (('\n' :: []) ++ j.data) ++
        ('\n' :: [btick, btick, btick])⟩ : String) := by
    apply String.ext
    rw [str_data_append, str_data_append]
    rw [show ("```\n" : String).data = [btick, btick, btick, '\n'] from rfl]
    rw [show ("\n```" : String).data = ['\n', btick, btick, btick] from rfl]
    simp
  have hbase : stage1 (PyVal.str j) = (jsonLoadsL j.data).bind extractFields :=
    stage1_of_object_string j mid hj
  have hfen1 : stage1 (PyVal.str ("```json\n" ++ j ++ "\n```")) =
      (jsonLoadsL j.data).bind extractFields := by
    rw [hstr1]
    exact stage1_fenced_eq 'j' ['s', 'o', 'n', '\n'] j mid hj (by decide) (by decide)
  have hfen2 : stage1 (PyVal.str ("```\n" ++ j ++ "\n```")) =
      (jsonLoadsL j.data).bind extractFields := by
    rw [hstr2]
    exact stage1_fenced_eq '\n' [] j mid hj (by decide) (by decide)
  have hF : (jsonLoadsL j.data).bind extractFields =
      some (pyStrip (_as_string (dget m kOriginal (PyVal.str ""))),
        pyStrip (_as_string (dget m kTranslation (PyVal.str ""))),
        _normalize_grammar_items (dget m kGrammar (PyVal.list []))) := by
    rw [hm]
    rfl
  constructor
  · exact parse_eq_of_stage1_some _ _ _ (hfen1.trans hF) (hbase.trans hF)
  · exact parse_eq_of_stage1_some _ _ _ (hfen2.trans hF) (hbase.trans hF)


/-- Concrete object string for the C9 witness. -/
def c9_j : String :=
  "\x7b\"original\": \"O\", \"translation\": \"T\", \"grammar\": []\x7d"

/-- Characters of `c9_j` strictly between the braces. -/
def c9_mid : List Char := c9_j.data.tail.dropLast

/-- The mapping `c9_j` parses to. -/
def c9_m : List (String × PyVal) :=
  [(kOriginal, PyVal.str "O"),
   (kTranslation, PyVal.str "T"),
   (kGrammar, PyVal.list [])]

/-- Witness for C9 at `c9_j`: fenced (with and without the `json` tag)
and unfenced payloads parse identically. -/
theorem fenced_payload_parses_like_unfenced_witness :
    c9_j.data = lbrace :: (c9_mid ++ [rbrace]) ∧
      jsonLoadsL c9_j.data = some (PyVal.dict c9_m) ∧
      (parse_and_validate_translation (PyVal.str ("```json\n" ++ c9_j ++ "\n```")) =
          parse_and_validate_translation (PyVal.str c9_j) ∧
        parse_and_validate_translation (PyVal.str ("```\n" ++ c9_j ++ "\n```")) =
          parse_and_validate_translation (PyVal.str c9_j)) := by
  have h1 : c9_j.data = lbrace :: (c9_mid ++ [rbrace]) := by rfl
  have h2 : jsonLoadsL c9_j.data = some (PyVal.dict c9_m) := by rfl
  exact ⟨h1, h2, fenced_payload_parses_like_unfenced c9_j c9_mid c9_m h1 h2⟩

end Validation
